import Mathlib

/-!
# Verification of the x86/x64 lowering pass (lowerxarch.cpp)

This file gives a shallow embedding of the parts of `Lowering` (the
x86/x64 instruction-selection lowering pass) that the checked claims are
about, and proves or refutes each claim against that embedding.

Each definition mirrors one source function or one source data shape.
Quantities that the source computes outside this translation unit
(side-effect walks, address equivalence, ISA probing) are modelled as
explicit boolean inputs; their doc comments say what they stand for.
-/

/-- JIT value types (`var_types` in the source), restricted to the types the
lowered nodes in the verified routines can carry. -/
inductive VarType
  | TYP_BYTE | TYP_UBYTE | TYP_SHORT | TYP_USHORT
  | TYP_INT | TYP_UINT | TYP_LONG | TYP_ULONG
  | TYP_FLOAT | TYP_DOUBLE
  | TYP_REF | TYP_BYREF | TYP_VOID
  | TYP_SIMD8 | TYP_SIMD12 | TYP_SIMD16 | TYP_SIMD32 | TYP_SIMD64
  | TYP_MASK
  deriving DecidableEq

/-- `varTypeIsSmall`: sub-32-bit integer types. -/
def varTypeIsSmall : VarType → Bool
  | .TYP_BYTE | .TYP_UBYTE | .TYP_SHORT | .TYP_USHORT => true
  | _ => false

/-- `varTypeIsFloating`. -/
def varTypeIsFloating : VarType → Bool
  | .TYP_FLOAT | .TYP_DOUBLE => true
  | _ => false

/-- `varTypeIsIntegral`. -/
def varTypeIsIntegral : VarType → Bool
  | .TYP_BYTE | .TYP_UBYTE | .TYP_SHORT | .TYP_USHORT
  | .TYP_INT | .TYP_UINT | .TYP_LONG | .TYP_ULONG => true
  | _ => false

/-- `varTypeIsArithmetic`: integral or floating. -/
def varTypeIsArithmetic (t : VarType) : Bool :=
  varTypeIsIntegral t || varTypeIsFloating t

/-- `genTypeSize` in bytes for the scalar types used as SIMD base types. -/
def genTypeSize : VarType → Nat
  | .TYP_BYTE | .TYP_UBYTE => 1
  | .TYP_SHORT | .TYP_USHORT => 2
  | .TYP_INT | .TYP_UINT | .TYP_FLOAT => 4
  | .TYP_LONG | .TYP_ULONG | .TYP_DOUBLE => 8
  | .TYP_REF | .TYP_BYREF => 8
  | .TYP_VOID => 0
  | .TYP_SIMD8 => 8
  | .TYP_SIMD12 => 12
  | .TYP_SIMD16 => 16
  | .TYP_SIMD32 => 32
  | .TYP_SIMD64 => 64
  | .TYP_MASK => 8

/-- `RMWStatus` (the cacheable RMW state of a `GT_STOREIND`). -/
inductive RMWStatus
  | STOREIND_RMW_STATUS_UNKNOWN
  | STOREIND_RMW_DST_IS_OP1
  | STOREIND_RMW_DST_IS_OP2
  | STOREIND_RMW_UNSUPPORTED_ADDR
  | STOREIND_RMW_UNSUPPORTED_OPER
  | STOREIND_RMW_UNSUPPORTED_TYPE
  deriving DecidableEq

/-- `GenTreeStoreInd::IsNonRMWMemoryOp`: one of the unsupported statuses. -/
def statusIsNonRMW : RMWStatus → Bool
  | .STOREIND_RMW_UNSUPPORTED_ADDR | .STOREIND_RMW_UNSUPPORTED_OPER
  | .STOREIND_RMW_UNSUPPORTED_TYPE => true
  | _ => false

/-- `GenTreeStoreInd::IsRMWMemoryOp`: destination already known to be op1/op2. -/
def statusIsRMW : RMWStatus → Bool
  | .STOREIND_RMW_DST_IS_OP1 | .STOREIND_RMW_DST_IS_OP2 => true
  | _ => false

/-- The operator tags (`genTreeOps`) relevant to the RMW detector. `GT_OTHER`
stands for any node kind outside this set. -/
inductive GenOper
  | GT_ADD | GT_SUB | GT_AND | GT_OR | GT_XOR | GT_MUL
  | GT_LSH | GT_RSH | GT_RSZ | GT_ROL | GT_ROR
  | GT_NOT | GT_NEG
  | GT_IND | GT_LEA | GT_LCL_VAR | GT_LCL_ADDR | GT_CNS_INT | GT_OTHER
  deriving DecidableEq

/-- `GenTree::OperIsShiftOrRotate`. -/
def OperIsShiftOrRotate : GenOper → Bool
  | .GT_LSH | .GT_RSH | .GT_RSZ | .GT_ROL | .GT_ROR => true
  | _ => false

/-- Modelled from the spec: `GenTree::OperIsRMWMemOp` (gentree.h, not part of
src) restricted to binary operators — the source comment at
lowerxarch.cpp:7297 lists add, sub, xor, or, and, and the shifts/rotates. -/
def OperIsRMWMemOp (oper : GenOper) : Bool :=
  match oper with
  | .GT_ADD | .GT_SUB | .GT_AND | .GT_OR | .GT_XOR => true
  | _ => OperIsShiftOrRotate oper

/-- `GenTree::OperIsCommutative` restricted to the integral binary operators
above. -/
def OperIsCommutative : GenOper → Bool
  | .GT_ADD | .GT_MUL | .GT_AND | .GT_OR | .GT_XOR => true
  | _ => false

/-- One operand of the store's data node, as the RMW candidate test
(`Lowering::IsRMWIndirCandidate`, lowerxarch.cpp:7166) sees it:
`isInd` — the operand is a `GT_IND`; `addrOperMatches` — the indirection's
source address has the same operator as the store's destination address;
`indirsEquivalent` — `IndirsAreEquivalent` holds (computed in lower.cpp,
modelled as an input); `safeToContain` — the backwards side-effect walk over
the LIR range accepts containing the indirection's tree (modelled as an
input). -/
structure RMWIndirOperand where
  isInd : Bool
  addrOperMatches : Bool
  indirsEquivalent : Bool
  safeToContain : Bool
  deriving DecidableEq

/-- `Lowering::IsRMWIndirCandidate`, lowerxarch.cpp:7166. -/
def IsRMWIndirCandidate (o : RMWIndirOperand) : Bool :=
  if !o.isInd then false
  else if !(o.addrOperMatches && o.indirsEquivalent) then false
  else o.safeToContain

/-- The store's data node (`indirSrc`): a binary operator, a unary operator,
or anything else (`leaf`, covering operands that are neither). -/
inductive IndirSrcNode
  | binOp (oper : GenOper) (overflow : Bool) (op1 op2 : RMWIndirOperand)
  | unOp (oper : GenOper) (op1 : RMWIndirOperand)
  | leaf
  deriving DecidableEq

/-- `indirSrc->gtOverflowEx()`. -/
def srcOverflow : IndirSrcNode → Bool
  | .binOp _ ov _ _ => ov
  | _ => false

/-- The destination-address test at lowerxarch.cpp:7376:
`indirDst->OperIs(GT_LEA, GT_LCL_VAR, GT_CNS_INT) || indirDst->IsLclVarAddr()`
(`GT_LCL_ADDR` here stands for a zero-offset local address). -/
def rmwSupportedDstAddr : GenOper → Bool
  | .GT_LEA | .GT_LCL_VAR | .GT_CNS_INT | .GT_LCL_ADDR => true
  | _ => false

/-- The tail of the detector: after a pattern matched, the destination
address must still be movable (`IsSafeToContainMem(storeInd, indirDst)`,
lowerxarch.cpp:7487), else the status degrades to unsupported-addr. -/
def finishRMWPattern (safeToContainDst : Bool) (st : RMWStatus) : RMWStatus × Bool :=
  if !safeToContainDst then (.STOREIND_RMW_UNSUPPORTED_ADDR, false) else (st, true)

/-- The fresh-status path of `Lowering::IsRMWMemOpRootedAtStoreInd`
(lowerxarch.cpp:7376-7500): runs when the cached status is still unknown. -/
def rmwDetectFresh (storeType : VarType) (dstOper : GenOper)
    (src : IndirSrcNode) (safeToContainDst : Bool) : RMWStatus × Bool :=
  if !rmwSupportedDstAddr dstOper then (.STOREIND_RMW_UNSUPPORTED_ADDR, false)
  else if srcOverflow src then (.STOREIND_RMW_UNSUPPORTED_OPER, false)
  else
    match src with
    | .binOp oper _ op1 op2 =>
      if !OperIsRMWMemOp oper then (.STOREIND_RMW_UNSUPPORTED_OPER, false)
      else if OperIsShiftOrRotate oper && varTypeIsSmall storeType then
        (.STOREIND_RMW_UNSUPPORTED_TYPE, false)
      else if OperIsCommutative oper && IsRMWIndirCandidate op2 then
        finishRMWPattern safeToContainDst .STOREIND_RMW_DST_IS_OP2
      else if IsRMWIndirCandidate op1 then
        finishRMWPattern safeToContainDst .STOREIND_RMW_DST_IS_OP1
      else (.STOREIND_RMW_UNSUPPORTED_ADDR, false)
    | .unOp oper op1 =>
      if !(oper == .GT_NOT || oper == .GT_NEG) then (.STOREIND_RMW_UNSUPPORTED_OPER, false)
      else if !op1.isInd then (.STOREIND_RMW_UNSUPPORTED_ADDR, false)
      else if IsRMWIndirCandidate op1 then
        finishRMWPattern safeToContainDst .STOREIND_RMW_DST_IS_OP1
      else (.STOREIND_RMW_UNSUPPORTED_ADDR, false)
    | .leaf => (.STOREIND_RMW_UNSUPPORTED_OPER, false)

/-- `Lowering::IsRMWMemOpRootedAtStoreInd`, lowerxarch.cpp:7323.  Returns the
status cached on the store and the boolean result: the early-outs reuse an
already-cached status, otherwise the fresh-status path runs. -/
def isRMWMemOpRootedAtStoreInd (storeType : VarType) (dstOper : GenOper)
    (src : IndirSrcNode) (safeToContainDst : Bool) (status : RMWStatus) :
    RMWStatus × Bool :=
  if statusIsNonRMW status then (status, false)
  else if statusIsRMW status then (status, true)
  else rmwDetectFresh storeType dstOper src safeToContainDst

/-- The gate in `Lowering::LowerStoreIndir` (lowerxarch.cpp:88): RMW
recognition runs only for non-floating-point stores. -/
def lowerStoreIndirEntersRMW (storeType : VarType) : Bool :=
  !varTypeIsFloating storeType


theorem shiftOrRotate_isRMWMemOp (oper : GenOper) (h : OperIsShiftOrRotate oper = true) :
    OperIsRMWMemOp oper = true := by
  cases oper <;> simp_all [OperIsShiftOrRotate, OperIsRMWMemOp]

theorem bool_and_elim {a b : Bool} (h : (a && b) = true) : a = true ∧ b = true := by
  cases a
  · exact absurd h (by simp)
  · cases b
    · exact absurd h (by simp)
    · exact ⟨rfl, rfl⟩

theorem bool_or_elim {a b : Bool} (h : (a || b) = true) : a = true ∨ b = true := by
  cases a
  · cases b
    · exact absurd h (by simp)
    · exact Or.inr rfl
  · exact Or.inl rfl

theorem not_bang_elim {b : Bool} (h : ¬((!b) = true)) : b = true := by
  cases b
  · exact absurd rfl h
  · rfl

theorem finishRMWPattern_eq (safeDst : Bool) (st : RMWStatus) :
    finishRMWPattern safeDst st =
      if (!safeDst) = true then (.STOREIND_RMW_UNSUPPORTED_ADDR, false)
      else (st, true) := rfl

theorem rmwDetectFresh_binOp_eq (storeType : VarType) (dstOper oper : GenOper)
    (ov : Bool) (op1 op2 : RMWIndirOperand) (safeDst : Bool) :
    rmwDetectFresh storeType dstOper (.binOp oper ov op1 op2) safeDst =
      (if (!rmwSupportedDstAddr dstOper) = true then
         (.STOREIND_RMW_UNSUPPORTED_ADDR, false)
       else if ov = true then (.STOREIND_RMW_UNSUPPORTED_OPER, false)
       else if (!OperIsRMWMemOp oper) = true then
         (.STOREIND_RMW_UNSUPPORTED_OPER, false)
       else if (OperIsShiftOrRotate oper && varTypeIsSmall storeType) = true then
         (.STOREIND_RMW_UNSUPPORTED_TYPE, false)
       else if (OperIsCommutative oper && IsRMWIndirCandidate op2) = true then
         finishRMWPattern safeDst .STOREIND_RMW_DST_IS_OP2
       else if IsRMWIndirCandidate op1 = true then
         finishRMWPattern safeDst .STOREIND_RMW_DST_IS_OP1
       else (.STOREIND_RMW_UNSUPPORTED_ADDR, false)) := rfl

theorem rmwDetectFresh_unOp_eq (storeType : VarType) (dstOper oper : GenOper)
    (op1 : RMWIndirOperand) (safeDst : Bool) :
    rmwDetectFresh storeType dstOper (.unOp oper op1) safeDst =
      (if (!rmwSupportedDstAddr dstOper) = true then
         (.STOREIND_RMW_UNSUPPORTED_ADDR, false)
       else if (!(oper == .GT_NOT || oper == .GT_NEG)) = true then
         (.STOREIND_RMW_UNSUPPORTED_OPER, false)
       else if (!op1.isInd) = true then (.STOREIND_RMW_UNSUPPORTED_ADDR, false)
       else if IsRMWIndirCandidate op1 = true then
         finishRMWPattern safeDst .STOREIND_RMW_DST_IS_OP1
       else (.STOREIND_RMW_UNSUPPORTED_ADDR, false)) := rfl

theorem rmwDetectFresh_leaf_eq (storeType : VarType) (dstOper : GenOper)
    (safeDst : Bool) :
    rmwDetectFresh storeType dstOper .leaf safeDst =
      (if (!rmwSupportedDstAddr dstOper) = true then
         (.STOREIND_RMW_UNSUPPORTED_ADDR, false)
       else (.STOREIND_RMW_UNSUPPORTED_OPER, false)) := rfl

/-- C2: for every non-floating-point indirect store with a fresh (unknown)
RMW status, the detector either caches `RMW_DST_IS_OP1`/`RMW_DST_IS_OP2`
(and then the stored value is a binary operator with an address-equivalent
`GT_IND` in the matching operand slot — the commuted slot only for a
commutative operator — or a `GT_NOT`/`GT_NEG` of such an indirection), or it
caches one of the unsupported statuses and reports failure, leaving the
store a plain store; a shift/rotate with a small store width gets
unsupported-type, overflow-checked arithmetic and operators outside the RMW
set get unsupported-oper, a destination that is not a
LEA/local/local-address/integer-constant gets unsupported-addr, and
floating-point stores never enter RMW recognition. -/
theorem C2_rmw_detector (storeType : VarType) (dstOper : GenOper)
    (src : IndirSrcNode) (safeDst : Bool) (st : RMWStatus) (ok : Bool)
    (hrun : isRMWMemOpRootedAtStoreInd storeType dstOper src safeDst
        .STOREIND_RMW_STATUS_UNKNOWN = (st, ok)) :
    (ok = true → (st = .STOREIND_RMW_DST_IS_OP1 ∨ st = .STOREIND_RMW_DST_IS_OP2))
  ∧ (ok = true → st = .STOREIND_RMW_DST_IS_OP2 →
       ∃ oper ov op1 op2, src = .binOp oper ov op1 op2 ∧
         OperIsCommutative oper = true ∧ IsRMWIndirCandidate op2 = true)
  ∧ (ok = true → st = .STOREIND_RMW_DST_IS_OP1 →
       (∃ oper ov op1 op2, src = .binOp oper ov op1 op2 ∧
          IsRMWIndirCandidate op1 = true) ∨
       (∃ oper op1, src = .unOp oper op1 ∧ (oper = .GT_NOT ∨ oper = .GT_NEG) ∧
          IsRMWIndirCandidate op1 = true))
  ∧ (ok = false → (st = .STOREIND_RMW_UNSUPPORTED_ADDR ∨
       st = .STOREIND_RMW_UNSUPPORTED_OPER ∨ st = .STOREIND_RMW_UNSUPPORTED_TYPE))
  ∧ (rmwSupportedDstAddr dstOper = false →
       st = .STOREIND_RMW_UNSUPPORTED_ADDR ∧ ok = false)
  ∧ (rmwSupportedDstAddr dstOper = true → srcOverflow src = true →
       st = .STOREIND_RMW_UNSUPPORTED_OPER ∧ ok = false)
  ∧ (∀ oper ov op1 op2, rmwSupportedDstAddr dstOper = true →
       src = .binOp oper ov op1 op2 → ov = false → OperIsRMWMemOp oper = false →
       st = .STOREIND_RMW_UNSUPPORTED_OPER ∧ ok = false)
  ∧ (∀ oper ov op1 op2, rmwSupportedDstAddr dstOper = true →
       src = .binOp oper ov op1 op2 → ov = false → OperIsShiftOrRotate oper = true →
       varTypeIsSmall storeType = true →
       st = .STOREIND_RMW_UNSUPPORTED_TYPE ∧ ok = false)
  ∧ (∀ t : VarType, varTypeIsFloating t = true → lowerStoreIndirEntersRMW t = false) := by
  have hbridge : isRMWMemOpRootedAtStoreInd storeType dstOper src safeDst
      .STOREIND_RMW_STATUS_UNKNOWN = rmwDetectFresh storeType dstOper src safeDst := rfl
  rw [hbridge] at hrun
  clear hbridge
  have hfp : ∀ t : VarType, varTypeIsFloating t = true →
      lowerStoreIndirEntersRMW t = false := by
    intro t ht
    simp [lowerStoreIndirEntersRMW, ht]
  have hmain :
      (ok = true → (st = .STOREIND_RMW_DST_IS_OP1 ∨ st = .STOREIND_RMW_DST_IS_OP2))
    ∧ (ok = true → st = .STOREIND_RMW_DST_IS_OP2 →
         ∃ oper ov op1 op2, src = .binOp oper ov op1 op2 ∧
           OperIsCommutative oper = true ∧ IsRMWIndirCandidate op2 = true)
    ∧ (ok = true → st = .STOREIND_RMW_DST_IS_OP1 →
         (∃ oper ov op1 op2, src = .binOp oper ov op1 op2 ∧
            IsRMWIndirCandidate op1 = true) ∨
         (∃ oper op1, src = .unOp oper op1 ∧ (oper = .GT_NOT ∨ oper = .GT_NEG) ∧
            IsRMWIndirCandidate op1 = true))
    ∧ (ok = false → (st = .STOREIND_RMW_UNSUPPORTED_ADDR ∨
         st = .STOREIND_RMW_UNSUPPORTED_OPER ∨
         st = .STOREIND_RMW_UNSUPPORTED_TYPE)) := by
    cases src with
    | binOp oper ov op1 op2 =>
      rw [rmwDetectFresh_binOp_eq] at hrun
      simp only [finishRMWPattern_eq] at hrun
      split_ifs at hrun with g1 g2 g3 g4 g5 g6 g7 g8 <;>
        (injection hrun with ha hb; subst ha; subst hb) <;>
        first
          | exact ⟨fun hok => Bool.noConfusion hok, fun hok _ => Bool.noConfusion hok,
              fun hok _ => Bool.noConfusion hok, fun _ => Or.inl rfl⟩
          | exact ⟨fun hok => Bool.noConfusion hok, fun hok _ => Bool.noConfusion hok,
              fun hok _ => Bool.noConfusion hok, fun _ => Or.inr (Or.inl rfl)⟩
          | exact ⟨fun hok => Bool.noConfusion hok, fun hok _ => Bool.noConfusion hok,
              fun hok _ => Bool.noConfusion hok, fun _ => Or.inr (Or.inr rfl)⟩
          | exact ⟨fun _ => Or.inr rfl,
              fun _ _ => ⟨oper, ov, op1, op2, rfl, (bool_and_elim g5).1,
                (bool_and_elim g5).2⟩,
              fun _ hst => RMWStatus.noConfusion hst,
              fun hok => Bool.noConfusion hok⟩
          | exact ⟨fun _ => Or.inl rfl, fun _ hst => RMWStatus.noConfusion hst,
              fun _ _ => Or.inl ⟨oper, ov, op1, op2, rfl, g7⟩,
              fun hok => Bool.noConfusion hok⟩
    | unOp oper op1 =>
      rw [rmwDetectFresh_unOp_eq] at hrun
      simp only [finishRMWPattern_eq] at hrun
      split_ifs at hrun with u1 u2 u3 u4 u5 <;>
        (injection hrun with ha hb; subst ha; subst hb) <;>
        first
          | exact ⟨fun hok => Bool.noConfusion hok, fun hok _ => Bool.noConfusion hok,
              fun hok _ => Bool.noConfusion hok, fun _ => Or.inl rfl⟩
          | exact ⟨fun hok => Bool.noConfusion hok, fun hok _ => Bool.noConfusion hok,
              fun hok _ => Bool.noConfusion hok, fun _ => Or.inr (Or.inl rfl)⟩
          | exact ⟨fun _ => Or.inl rfl, fun _ hst => RMWStatus.noConfusion hst,
              fun _ _ => Or.inr ⟨oper, op1, rfl,
                (bool_or_elim (not_bang_elim u2)).elim
                  (fun h1 => Or.inl (of_decide_eq_true h1))
                  (fun h1 => Or.inr (of_decide_eq_true h1)), u4⟩,
              fun hok => Bool.noConfusion hok⟩
    | leaf =>
      rw [rmwDetectFresh_leaf_eq] at hrun
      split_ifs at hrun <;>
        (injection hrun with ha hb; subst ha; subst hb) <;>
        first
          | exact ⟨fun hok => Bool.noConfusion hok, fun hok _ => Bool.noConfusion hok,
              fun hok _ => Bool.noConfusion hok, fun _ => Or.inl rfl⟩
          | exact ⟨fun hok => Bool.noConfusion hok, fun hok _ => Bool.noConfusion hok,
              fun hok _ => Bool.noConfusion hok, fun _ => Or.inr (Or.inl rfl)⟩
  refine ⟨hmain.1, hmain.2.1, hmain.2.2.1, hmain.2.2.2, ?_, ?_, ?_, ?_, hfp⟩
  · intro hd
    cases src with
    | binOp oper ov op1 op2 =>
      rw [rmwDetectFresh_binOp_eq,
        if_pos (show (!rmwSupportedDstAddr dstOper) = true by rw [hd]; rfl)] at hrun
      injection hrun with ha hb
      exact ⟨ha.symm, hb.symm⟩
    | unOp oper op1 =>
      rw [rmwDetectFresh_unOp_eq,
        if_pos (show (!rmwSupportedDstAddr dstOper) = true by rw [hd]; rfl)] at hrun
      injection hrun with ha hb
      exact ⟨ha.symm, hb.symm⟩
    | leaf =>
      rw [rmwDetectFresh_leaf_eq,
        if_pos (show (!rmwSupportedDstAddr dstOper) = true by rw [hd]; rfl)] at hrun
      injection hrun with ha hb
      exact ⟨ha.symm, hb.symm⟩
  · intro hd hov
    cases src with
    | binOp oper ov op1 op2 =>
      have hov2 : ov = true := hov
      rw [rmwDetectFresh_binOp_eq,
        if_neg (show ¬((!rmwSupportedDstAddr dstOper) = true) by
          rw [hd]
          exact fun h => Bool.noConfusion h),
        if_pos hov2] at hrun
      injection hrun with ha hb
      exact ⟨ha.symm, hb.symm⟩
    | unOp oper op1 => exact Bool.noConfusion hov
    | leaf => exact Bool.noConfusion hov
  · intro oper ov op1 op2 hd hsrc hov hoper
    subst hsrc
    subst hov
    rw [rmwDetectFresh_binOp_eq,
      if_neg (show ¬((!rmwSupportedDstAddr dstOper) = true) by
        rw [hd]
        exact fun h => Bool.noConfusion h),
      if_neg (show ¬((false : Bool) = true) from fun h => Bool.noConfusion h),
      if_pos (show (!OperIsRMWMemOp oper) = true by rw [hoper]; rfl)] at hrun
    injection hrun with ha hb
    exact ⟨ha.symm, hb.symm⟩
  · intro oper ov op1 op2 hd hsrc hov hshrot hsmall
    subst hsrc
    subst hov
    rw [rmwDetectFresh_binOp_eq,
      if_neg (show ¬((!rmwSupportedDstAddr dstOper) = true) by
        rw [hd]
        exact fun h => Bool.noConfusion h),
      if_neg (show ¬((false : Bool) = true) from fun h => Bool.noConfusion h),
      if_neg (show ¬((!OperIsRMWMemOp oper) = true) by
        rw [shiftOrRotate_isRMWMemOp oper hshrot]
        exact fun h => Bool.noConfusion h),
      if_pos (show (OperIsShiftOrRotate oper && varTypeIsSmall storeType) = true by
        rw [hshrot, hsmall]; rfl)] at hrun
    injection hrun with ha hb
    exact ⟨ha.symm, hb.symm⟩

/-- Witness for C2: `STORE_IND(lea, ADD(IND(lea), r))` is detected with
status `RMW_DST_IS_OP1`. -/
theorem C2_rmw_detector_witness :
    (RMWStatus.STOREIND_RMW_DST_IS_OP1 = .STOREIND_RMW_DST_IS_OP1 ∨
      RMWStatus.STOREIND_RMW_DST_IS_OP1 = .STOREIND_RMW_DST_IS_OP2) :=
  (C2_rmw_detector .TYP_INT .GT_LEA
      (.binOp .GT_ADD false ⟨true, true, true, true⟩ ⟨false, false, false, false⟩)
      true .STOREIND_RMW_DST_IS_OP1 true (by decide)).1 rfl

/-! ## Shared SIMD lowering vocabulary -/

/-- The hardware-intrinsic ids this development mentions. -/
inductive NamedIntrinsic
  | NI_Vector128_ToScalar | NI_Vector256_ToScalar | NI_Vector512_ToScalar
  | NI_SSE42_BlendVariable | NI_AVX_BlendVariable | NI_AVX2_BlendVariable
  | NI_AVX512_BlendVariableMask
  | NI_AVX512_TernaryLogic
  | NI_AVX2_ResetLowestSetBit | NI_AVX2_X64_ResetLowestSetBit
  | NI_AVX2_BroadcastScalarToVector128 | NI_AVX2_BroadcastScalarToVector256
  | NI_AVX512_BroadcastScalarToVector512
  | NI_Vector128_CreateScalarUnsafe
  deriving DecidableEq

/-- The ISA-availability predicates (`comp->compOpportunisticallyDependsOn`)
the verified routines probe, captured as an immutable bit-set. -/
structure IsaFlags where
  sse42 : Bool
  avx : Bool
  avx2 : Bool
  avx512 : Bool
  avx2x64 : Bool
  deriving DecidableEq

/-- How a rewrite disposed of the replaced node's use: `LIR::Use` found via
`BlockRange().TryGetUse` and redirected with `ReplaceWith`, or no use found
and the replacement marked with `SetUnusedValue`. -/
inductive UseHandling
  | replacedUse
  | markedUnused
  deriving DecidableEq

/-- The use-handling idiom shared by the substituting rewrites:
`if (BlockRange().TryGetUse(node, &use)) use.ReplaceWith(r); else
r->SetUnusedValue();`. -/
def handleUse (hasUse : Bool) : UseHandling :=
  if hasUse then .replacedUse else .markedUnused

/-! ## `Lowering::LowerHWIntrinsicGetElement` (claims C3, C9) -/

/-- A `GT_LEA` (`GenTreeAddrMode`): `hasIndex` — the index slot is occupied;
`scale`/`offset` — its scale and displacement. -/
structure AddrModeNode where
  hasBase : Bool
  hasIndex : Bool
  scale : Nat
  offset : Int
  deriving DecidableEq

/-- The vector operand of `GetElement`: an indirection whose address is an
existing address mode, an indirection with any other address, or a
non-indirection. -/
inductive GEVectorOperand
  | indAddrMode (am : AddrModeNode)
  | indPlain
  | nonInd
  deriving DecidableEq

/-- The index operand of `GetElement`. -/
inductive GEIndexOperand
  | cnsInt (value : Int)
  | nonConst
  deriving DecidableEq

/-- The rewrite performed by `LowerHWIntrinsicGetElement`:
`toScalar` — the zero-index special case (the constant index node is removed
from the block range and the rewritten node is lowered again);
`indirFoldedOffset` — the constant index folded into the existing address
mode's displacement; the remaining constructors are the other addressing
rewrites and the non-indirection lane-extraction paths. -/
inductive GEResult
  | toScalar (ni : NamedIntrinsic) (indexRemoved : Bool) (relowered : Bool)
  | indirFoldedOffset (newOffset : Int)
  | indirNewIndexScale
  | indirAddedIndex
  | indirNestedBase
  | indirBaseWithOffset (newOffset : Int)
  | indirBaseWithIndex
  | otherLowering
  deriving DecidableEq

/-- The displacement added when a constant element index is folded into an
address (lowerxarch.cpp:5246-5247 and 5294-5295):
`(static_cast<uint8_t>(IconValue()) % count) * elemSize`.  `Int.emod _ 256`
is the C truncation of the index constant to `uint8_t`. -/
def geConstIndexDisp (icon : Int) (count elemSize : Nat) : Nat :=
  ((icon.emod 256).toNat % count) * elemSize

/-- `Lowering::LowerHWIntrinsicGetElement`, lowerxarch.cpp:5138. -/
def lowerHWIntrinsicGetElement (simdSize : Nat) (simdBaseType : VarType)
    (op1 : GEVectorOperand) (op2 : GEIndexOperand) : GEResult :=
  if op2 == .cnsInt 0 then
    .toScalar
      (if simdSize == 64 then .NI_Vector512_ToScalar
       else if simdSize == 32 then .NI_Vector256_ToScalar
       else .NI_Vector128_ToScalar) true true
  else
    let elemSize := genTypeSize simdBaseType
    let count := simdSize / elemSize
    match op1 with
    | .indAddrMode am =>
      match op2 with
      | .cnsInt icon =>
        if am.offset < (2147483647 - (simdSize : Int)) then
          .indirFoldedOffset (am.offset + (geConstIndexDisp icon count elemSize : Nat))
        else if !am.hasIndex then .indirNewIndexScale
        else if am.scale == elemSize then .indirAddedIndex
        else .indirNestedBase
      | .nonConst =>
        if !am.hasIndex then .indirNewIndexScale
        else if am.scale == elemSize then .indirAddedIndex
        else .indirNestedBase
    | .indPlain =>
      match op2 with
      | .cnsInt icon =>
        .indirBaseWithOffset (geConstIndexDisp icon count elemSize : Nat)
      | .nonConst => .indirBaseWithIndex
    | .nonInd => .otherLowering

/-- C3: a `GetElement(v, i)` whose index operand is the integer constant 0 is
rewritten to the `ToScalar` intrinsic of the matching vector width (512-bit
SIMD size picks `Vector512_ToScalar`, 32-byte picks `Vector256_ToScalar`,
anything smaller picks `Vector128_ToScalar`), the constant index node is
removed from the block range, and lowering continues on the rewritten
node. -/
theorem C3_getElement_zero_index (simdSize : Nat) (t : VarType)
    (op1 : GEVectorOperand) :
    lowerHWIntrinsicGetElement simdSize t op1 (.cnsInt 0) =
      .toScalar
        (if simdSize = 64 then .NI_Vector512_ToScalar
         else if simdSize = 32 then .NI_Vector256_ToScalar
         else .NI_Vector128_ToScalar) true true := by
  simp [lowerHWIntrinsicGetElement]

/-- C9: when `GetElement(v, i)` is lowered with `v` an indirection through an
existing address mode and `i` a non-zero integer constant, the constant is
folded into the displacement only when the existing displacement is below
`INT32_MAX` minus the SIMD size; the displacement added is
`((uint8_t)i mod count) * elemSize`, which always lands inside the vector
(the last readable byte stays within `simdSize`). -/
theorem C9_getElement_addrmode_fold (simdSize : Nat) (t : VarType)
    (am : AddrModeNode) (icon : Int) (hicon : icon ≠ 0)
    (helem : 0 < genTypeSize t) (hle : genTypeSize t ≤ simdSize) :
    (∀ r, lowerHWIntrinsicGetElement simdSize t (.indAddrMode am) (.cnsInt icon) =
        .indirFoldedOffset r →
      am.offset < 2147483647 - (simdSize : Int) ∧
        r = am.offset + (geConstIndexDisp icon (simdSize / genTypeSize t)
          (genTypeSize t) : Nat))
  ∧ (am.offset < 2147483647 - (simdSize : Int) →
      lowerHWIntrinsicGetElement simdSize t (.indAddrMode am) (.cnsInt icon) =
        .indirFoldedOffset (am.offset +
          (geConstIndexDisp icon (simdSize / genTypeSize t) (genTypeSize t) : Nat)))
  ∧ (geConstIndexDisp icon (simdSize / genTypeSize t) (genTypeSize t)
        + genTypeSize t ≤ simdSize) := by
  have hcount : 0 < simdSize / genTypeSize t := Nat.div_pos hle helem
  have hbound : geConstIndexDisp icon (simdSize / genTypeSize t) (genTypeSize t)
      + genTypeSize t ≤ simdSize := by
    have hmod : (icon.emod 256).toNat % (simdSize / genTypeSize t)
        < simdSize / genTypeSize t := Nat.mod_lt _ hcount
    have h1 : geConstIndexDisp icon (simdSize / genTypeSize t) (genTypeSize t)
        + genTypeSize t ≤ (simdSize / genTypeSize t) * genTypeSize t := by
      have : ((icon.emod 256).toNat % (simdSize / genTypeSize t)) + 1
          ≤ simdSize / genTypeSize t := hmod
      calc geConstIndexDisp icon (simdSize / genTypeSize t) (genTypeSize t)
            + genTypeSize t
          = (((icon.emod 256).toNat % (simdSize / genTypeSize t)) + 1)
            * genTypeSize t := by
            simp [geConstIndexDisp, Nat.add_mul]
        _ ≤ (simdSize / genTypeSize t) * genTypeSize t :=
            Nat.mul_le_mul_right _ this
    exact le_trans h1 (Nat.div_mul_le_self _ _)
  have hne : ((GEIndexOperand.cnsInt icon == GEIndexOperand.cnsInt 0)) = false := by
    simp [hicon]
  refine ⟨?_, ?_, hbound⟩
  · intro r hr
    simp only [lowerHWIntrinsicGetElement, hne, Bool.false_eq_true, if_false] at hr
    split_ifs at hr with h1 h2 h3
    · exact ⟨h1, by injection hr with h; exact h.symm⟩
  · intro hoff
    simp only [lowerHWIntrinsicGetElement, hne, Bool.false_eq_true, if_false]
    rw [if_pos hoff]

/-- Witness for C9: a 16-byte float vector loaded through `LEA(base, 0)` and
indexed by the constant 5 loads lane `5 mod 4 = 1`, displacement 4. -/
theorem C9_getElement_addrmode_fold_witness :
    lowerHWIntrinsicGetElement 16 .TYP_FLOAT
        (.indAddrMode ⟨true, false, 0, 0⟩) (.cnsInt 5) =
      .indirFoldedOffset 4 := by
  have h := (C9_getElement_addrmode_fold 16 .TYP_FLOAT ⟨true, false, 0, 0⟩ 5
      (by decide) (by decide) (by decide)).2.1 (by decide)
  simpa using h

/-! ## `Lowering::LowerHWIntrinsicCndSel` (claim C4) -/

/-- Positions in the rewritten node's operand list: the original condition,
left value, right value, the `TYP_MASK` node derived from the condition, or
an inserted control-byte constant. -/
inductive CndSelArg
  | condOp | leftOp | rightOp | maskFromCond | controlByte (value : Nat)
  deriving DecidableEq

/-- Outcome of `LowerHWIntrinsicCndSel`:
`blendVariableMask`/`blendVariable` — node re-id'd in place with the listed
operand order; `andOp` — `AND(cond, left)` replacing the node (right arm was
a zero constant); `andNotOp` — `AND_NOT(right, cond)` (left arm was zero);
`ternaryLogic` — node re-id'd to `TernaryLogic` with an inserted control
byte; `orAndAndNot` — the `OR(AND(cond, left), AND_NOT(right, cond))`
expansion.  Substituting outcomes carry how the old node's use was
redirected. -/
inductive CndSelResult
  | blendVariableMask (args : List CndSelArg)
  | blendVariable (ni : NamedIntrinsic) (args : List CndSelArg)
  | andOp (use : UseHandling)
  | andNotOp (use : UseHandling)
  | ternaryLogic (args : List CndSelArg)
  | orAndAndNot (use : UseHandling)
  deriving DecidableEq

/-- The state of a `ConditionalSelect(cond, a, b)` node as the lowering
queries it: `op1PerElementMask` — `op1->IsVectorPerElementMask(...)`;
`op1CvtMaskToVector` — `op1->OperIsConvertMaskToVector()`;
`op2IsZero`/`op3IsZero` — the value arms are all-zero vector constants. -/
structure CndSelNode where
  simdSize : Nat
  simdBaseType : VarType
  op1PerElementMask : Bool
  op1CvtMaskToVector : Bool
  op2IsZero : Bool
  op3IsZero : Bool
  deriving DecidableEq

/-- The shared tail of `LowerHWIntrinsicCndSel` (lowerxarch.cpp:3657-3722):
reached when no `BlendVariable` form was selected. -/
def cndSelFallback (isa : IsaFlags) (hasUse : Bool) : CndSelResult :=
  if isa.avx512 then
    .ternaryLogic [.condOp, .leftOp, .rightOp, .controlByte 0xCA]
  else .orAndAndNot (handleUse hasUse)

/-- `Lowering::LowerHWIntrinsicCndSel`, lowerxarch.cpp:3533. -/
def lowerHWIntrinsicCndSel (isa : IsaFlags) (n : CndSelNode) (hasUse : Bool) :
    CndSelResult :=
  if n.op1PerElementMask then
    if n.simdSize == 64 || n.op1CvtMaskToVector then
      .blendVariableMask [.rightOp, .leftOp, .maskFromCond]
    else if n.op2IsZero || n.op3IsZero then
      if n.op3IsZero then .andOp (handleUse hasUse)
      else .andNotOp (handleUse hasUse)
    else if n.simdSize == 32 then
      if varTypeIsFloating n.simdBaseType then
        .blendVariable .NI_AVX_BlendVariable [.rightOp, .leftOp, .condOp]
      else if isa.avx2 then
        .blendVariable .NI_AVX2_BlendVariable [.rightOp, .leftOp, .condOp]
      else cndSelFallback isa hasUse
    else if isa.sse42 then
      .blendVariable .NI_SSE42_BlendVariable [.rightOp, .leftOp, .condOp]
    else cndSelFallback isa hasUse
  else cndSelFallback isa hasUse

/-- The shape of an integral `GT_AND` node as the peephole queries it:
op1 and the add's first operand are (possibly) local-variable reads with
their local numbers and op1's address-exposed bit; `op2IsAdd` — op2 is a
`GT_ADD`; `addOp2IsCnsNeg1` — the add's second operand is the constant -1;
the three `SetFlags` bits are the `GTF_SET_FLAGS` flags checked at
lowerxarch.cpp:6825. -/
structure AndBlsrShape where
  op1IsLclVar : Bool
  op1LclNum : Nat
  op1AddrExposed : Bool
  op1IsLong : Bool
  op2IsAdd : Bool
  addOp1IsLclVar : Bool
  addOp1LclNum : Nat
  addOp2IsCnsNeg1 : Bool
  addOp2SetFlags : Bool
  addSetFlags : Bool
  andSetFlags : Bool
  deriving DecidableEq

/-- Outcome of the peephole: `replaced` records the intrinsic id of the new
node and which of the matched nodes were removed from the block range (the
`AND`, the `ADD`, the duplicate local read, the -1 constant); `noChange` is
the `nullptr` return. -/
inductive BlsrResult
  | replaced (intrinsic : NamedIntrinsic)
      (removedAnd removedAdd removedDupLcl removedCns : Bool)
  | noChange
  deriving DecidableEq

/-- `Lowering::TryLowerAndOpToResetLowestSetBit`, lowerxarch.cpp:6796. -/
def tryLowerAndOpToResetLowestSetBit (isa : IsaFlags) (n : AndBlsrShape)
    (hasUse : Bool) : BlsrResult :=
  if !n.op1IsLclVar || n.op1AddrExposed then .noChange
  else if !n.op2IsAdd then .noChange
  else if !n.addOp2IsCnsNeg1 then .noChange
  else if !n.addOp1IsLclVar || n.addOp1LclNum != n.op1LclNum then .noChange
  else if n.addOp2SetFlags || n.addSetFlags || n.andSetFlags then .noChange
  else if n.op1IsLong && isa.avx2x64 then
    if !hasUse then .noChange
    else .replaced .NI_AVX2_X64_ResetLowestSetBit true true true true
  else if !(n.op1IsLong && isa.avx2x64) && isa.avx2 then
    if !hasUse then .noChange
    else .replaced .NI_AVX2_ResetLowestSetBit true true true true
  else .noChange

/-- C5: an integral `AND(x, ADD(x, -1))` where both reads of `x` name the
same non-address-exposed local, the required instruction set is available
(the 64-bit variant for a `TYP_LONG` node, the 32-bit variant otherwise),
the `AND` has a use in its block range, and none of the `AND`, `ADD`, or -1
nodes must set CPU flags, is replaced by a single `ResetLowestSetBit(x)`
node, and the `AND`, the `ADD`, the duplicate local read, and the -1
constant are removed from the block range. -/
theorem C5_blsr_peephole (isa : IsaFlags) (n : AndBlsrShape)
    (h1 : n.op1IsLclVar = true) (h2 : n.op1AddrExposed = false)
    (h3 : n.op2IsAdd = true) (h4 : n.addOp2IsCnsNeg1 = true)
    (h5 : n.addOp1IsLclVar = true) (h6 : n.addOp1LclNum = n.op1LclNum)
    (h7 : n.addOp2SetFlags = false) (h8 : n.addSetFlags = false)
    (h9 : n.andSetFlags = false)
    (hisaLong : n.op1IsLong = true → isa.avx2x64 = true)
    (hisaInt : n.op1IsLong = false → isa.avx2 = true) :
    tryLowerAndOpToResetLowestSetBit isa n true =
      .replaced
        (if n.op1IsLong then .NI_AVX2_X64_ResetLowestSetBit
         else .NI_AVX2_ResetLowestSetBit)
        true true true true := by
  cases hlong : n.op1IsLong with
  | true =>
    simp [tryLowerAndOpToResetLowestSetBit, h1, h2, h3, h4, h5, h6, h7, h8, h9,
      hlong, hisaLong hlong]
  | false =>
    simp [tryLowerAndOpToResetLowestSetBit, h1, h2, h3, h4, h5, h6, h7, h8, h9,
      hlong, hisaInt hlong]

/-- Witness for C5: a concrete int-typed `AND(x, ADD(x, -1))` with AVX2
available becomes `ResetLowestSetBit`. -/
theorem C5_blsr_peephole_witness :
    tryLowerAndOpToResetLowestSetBit ⟨true, true, true, true, true⟩
        (AndBlsrShape.mk true 3 false false true true 3 true false false false)
        true =
      .replaced .NI_AVX2_ResetLowestSetBit true true true true := by
  have h := C5_blsr_peephole ⟨true, true, true, true, true⟩
      (AndBlsrShape.mk true 3 false false true true 3 true false false false)
      rfl rfl rfl rfl rfl rfl rfl rfl rfl
      (fun hx => by simp_all) (fun _ => rfl)
  simpa using h

/-! ## `Lowering::LowerHWIntrinsicCreate` constant folding (claim C6) -/

/-- An operand of a `Create`/`CreateScalar` intrinsic as its constant test
sees it: an integral/floating constant carrying a lane value, or any
non-constant node. -/
inductive CreateOperand
  | cns (value : Int)
  | nonCns
  deriving DecidableEq, Inhabited

/-- Whether the operand is a constant. -/
def createOperandIsCns : CreateOperand → Bool
  | .cns _ => true
  | .nonCns => false

/-- The constant's lane value (only queried on constants). -/
def createOperandValue : CreateOperand → Int
  | .cns v => v
  | .nonCns => 0

/-- Modelled from the spec: `GenTreeVecCon::IsHWIntrinsicCreateConstant`
(gentree, not part of src) succeeds when every operand is a constant and
assembles the vector value from the operands: an n-operand `Create` puts
operand i into lane i, a single-operand `Create` broadcasts its constant to
every lane, and `CreateScalar` sets lane 0 and zeroes the upper lanes. -/
def assembleSimdVal (isCreateScalar : Bool) (laneCount : Nat)
    (ops : List CreateOperand) : List Int :=
  if ops.length == 1 then
    if isCreateScalar then
      createOperandValue ops.headI :: List.replicate (laneCount - 1) 0
    else List.replicate laneCount (createOperandValue ops.headI)
  else ops.map createOperandValue

/-- Outcome of the constant path of `LowerHWIntrinsicCreate`
(lowerxarch.cpp:4227-4260): a `GT_CNS_VEC` node holding the assembled lanes
is inserted, every operand node and the `Create` node are removed from the
block range, and the node's use is redirected to the constant (or the
constant is marked unused). -/
inductive CreateResult
  | vecCon (lanes : List Int) (operandsRemoved : Bool) (nodeRemoved : Bool)
      (use : UseHandling)
  | nonConstPath
  deriving DecidableEq

/-- The constant-fold dispatch of `Lowering::LowerHWIntrinsicCreate`,
lowerxarch.cpp:4194 (`isConstant` branch; the non-constant shapes continue
into the per-width construction code, summarized as `nonConstPath`). -/
def lowerHWIntrinsicCreate (isCreateScalar : Bool) (laneCount : Nat)
    (ops : List CreateOperand) (hasUse : Bool) : CreateResult :=
  if ops.all createOperandIsCns then
    .vecCon (assembleSimdVal isCreateScalar laneCount ops) true true
      (handleUse hasUse)
  else .nonConstPath

/-- C6: a `Create`/`CreateScalar` all of whose operands are constants is
replaced by a single vector-constant node whose lanes are assembled from
the operand values (per-lane for an n-operand `Create`, broadcast for a
single-operand `Create`, scalar-plus-zeros for `CreateScalar`); the use is
redirected to the constant (or the constant marked unused), and the
`Create` node and every operand node are removed from the block range. -/
theorem C6_create_constant_fold (isCS : Bool) (laneCount : Nat)
    (ops : List CreateOperand) (hasUse : Bool)
    (hconst : ops.all createOperandIsCns = true) :
    lowerHWIntrinsicCreate isCS laneCount ops hasUse =
      .vecCon (assembleSimdVal isCS laneCount ops) true true (handleUse hasUse)
  ∧ (1 < ops.length →
      assembleSimdVal isCS laneCount ops = ops.map createOperandValue)
  ∧ (∀ v, ops = [.cns v] → isCS = false →
      assembleSimdVal isCS laneCount ops = List.replicate laneCount v)
  ∧ (∀ v, ops = [.cns v] → isCS = true →
      assembleSimdVal isCS laneCount ops = v :: List.replicate (laneCount - 1) 0) := by
  refine ⟨?_, ?_, ?_, ?_⟩
  · simp [lowerHWIntrinsicCreate, hconst]
  · intro hlen
    have : (ops.length == 1) = false := by
      simp only [beq_eq_false_iff_ne, ne_eq]
      omega
    simp [assembleSimdVal, this]
  · rintro v rfl hcs
    simp [assembleSimdVal, hcs, createOperandValue]
  · rintro v rfl hcs
    simp [assembleSimdVal, hcs, createOperandValue]

/-- Witness for C6: `Vector128.Create(1, 2, 3, 4)` folds to the constant
vector `<1, 2, 3, 4>`. -/
theorem C6_create_constant_fold_witness :
    lowerHWIntrinsicCreate false 4 [.cns 1, .cns 2, .cns 3, .cns 4] true =
      .vecCon [1, 2, 3, 4] true true .replacedUse := by
  have h := (C6_create_constant_fold false 4 [.cns 1, .cns 2, .cns 3, .cns 4]
      true (by decide)).1
  simpa [assembleSimdVal, handleUse, createOperandValue] using h

/-! ## `Lowering::IsContainableImmed` / `ContainCheckStoreIndir` (claim C7)

The embedding targets TARGET_AMD64, where `IsIntCnsFitsInI32` is an integer
constant whose value fits a signed 32-bit integer. -/

/-- The data operand of an indirect store as the immediate-containment test
sees it: whether it is an integer constant, its value, and whether the
constant needs a relocation (`ImmedValNeedsReloc`). -/
structure ImmOperand where
  isIntCon : Bool
  value : Int
  needsReloc : Bool
  deriving DecidableEq

/-- `FitsIn<INT32>` on a 64-bit target. -/
def fitsInI32 (v : Int) : Bool :=
  (-2147483648 ≤ v) && (v ≤ 2147483647)

/-- `Lowering::IsContainableImmed`, lowerxarch.cpp:7510. -/
def isContainableImmed (c : ImmOperand) : Bool :=
  if !(c.isIntCon && fitsInI32 c.value) then false
  else if c.needsReloc then false
  else true

/-- `src->IsIntegralConst(0)`. -/
def isIntegralConstZero (c : ImmOperand) : Bool :=
  c.isIntCon && c.value == 0

/-- The immediate-containment decision of `Lowering::ContainCheckStoreIndir`,
lowerxarch.cpp:7770: the source is contained when
`IsContainableImmed(node, src) && (!src->IsIntegralConst(0) ||
varTypeIsSmall(node))`. -/
def containCheckStoreIndirImmed (storeType : VarType) (c : ImmOperand) : Bool :=
  isContainableImmed c && (!isIntegralConstZero c || varTypeIsSmall storeType)

/-- Counterexample to C7 as stated: a byte-sized indirect store of the
immediate zero (in range, no relocation) IS marked contained — the source
only excludes zero stores of int size or larger
(`!src->IsIntegralConst(0) || varTypeIsSmall(node)` at lowerxarch.cpp:7770),
while the claim says immediate zero stores are left non-contained. -/
theorem C7_store_immediate_counterexample :
    isContainableImmed ⟨true, 0, false⟩ = true ∧
    varTypeIsSmall .TYP_BYTE = true ∧
    containCheckStoreIndirImmed .TYP_BYTE ⟨true, 0, false⟩ = true := by
  decide

/-- C7 (amended): a containable immediate — an integer constant fitting
signed 32 bits with no relocation — stored indirectly is marked contained,
except that an immediate zero store of int size or larger is left
non-contained (small zero stores are still contained); an immediate needing
relocation or not fitting signed 32 bits is never contained. -/
theorem C7_store_immediate_amended (storeType : VarType) (c : ImmOperand) :
    (containCheckStoreIndirImmed storeType c = true ↔
      (isContainableImmed c = true ∧
        (isIntegralConstZero c = false ∨ varTypeIsSmall storeType = true)))
  ∧ (c.needsReloc = true →
      isContainableImmed c = false ∧
        containCheckStoreIndirImmed storeType c = false)
  ∧ (fitsInI32 c.value = false →
      isContainableImmed c = false ∧
        containCheckStoreIndirImmed storeType c = false) := by
  refine ⟨?_, ?_, ?_⟩
  · constructor
    · intro h
      simp only [containCheckStoreIndirImmed, Bool.and_eq_true, Bool.or_eq_true,
        Bool.not_eq_true'] at h
      exact ⟨h.1, h.2⟩
    · rintro ⟨h1, h2⟩
      simp only [containCheckStoreIndirImmed, Bool.and_eq_true, Bool.or_eq_true,
        Bool.not_eq_true']
      exact ⟨h1, h2⟩
  · intro hr
    have h1 : isContainableImmed c = false := by
      simp [isContainableImmed, hr]
    exact ⟨h1, by simp [containCheckStoreIndirImmed, h1]⟩
  · intro hf
    have h1 : isContainableImmed c = false := by
      simp [isContainableImmed, hf]
    exact ⟨h1, by simp [containCheckStoreIndirImmed, h1]⟩

/-- Witness for C7 (amended): a non-zero in-range immediate stored to an
int-sized location is contained, and a relocatable immediate is not. -/
theorem C7_store_immediate_amended_witness :
    containCheckStoreIndirImmed .TYP_INT ⟨true, 42, false⟩ = true ∧
    isContainableImmed ⟨true, 42, true⟩ = false := by
  constructor
  · exact (C7_store_immediate_amended .TYP_INT ⟨true, 42, false⟩).1.mpr
      ⟨by decide, Or.inl (by decide)⟩
  · exact ((C7_store_immediate_amended .TYP_INT ⟨true, 42, true⟩).2.1 rfl).1

/-! ## `Lowering::TryFoldCnsVecForEmbeddedBroadcast` (claim C8) -/

/-- The containment gate for constant-vector operands in
`Lowering::IsContainableHWIntrinsicOp` (lowerxarch.cpp:9195-9199): a
`GT_CNS_VEC` child can be contained only when the parent supports a memory
operand and the constant is neither all-bits-set nor zero. -/
def cnsVecCanBeContained (supportsMemoryOp isAllBitsSet isZero : Bool) : Bool :=
  supportsMemoryOp && (!isAllBitsSet && !isZero)

/-- The per-width broadcast intrinsic chosen at lowerxarch.cpp:9394-9406. -/
def broadcastNameForSimd (simdType : VarType) : NamedIntrinsic :=
  if simdType == .TYP_SIMD32 then .NI_AVX2_BroadcastScalarToVector256
  else if simdType == .TYP_SIMD64 then .NI_AVX512_BroadcastScalarToVector512
  else .NI_AVX2_BroadcastScalarToVector128

/-- Outcome of `TryFoldCnsVecForEmbeddedBroadcast`: either the constant is
simply contained in the parent (`plainContained`, `MakeSrcContained`), or it
is replaced by `BroadcastScalarToVectorNNN(CreateScalarUnsafe(scalar))`:
`createScalarContained`/`constScalarContained` record which inner node was
contained in the broadcast node (the scalar creation for floating base
types, the scalar constant for integral ones), `broadcastContainedInParent`
that the broadcast node was contained in the parent, and `use` how the
constant's use was redirected. -/
inductive EmbBcstFoldResult
  | plainContained
  | broadcastFolded (broadcastName : NamedIntrinsic)
      (createScalarContained : Bool) (constScalarContained : Bool)
      (broadcastContainedInParent : Bool) (use : UseHandling)
  deriving DecidableEq

/-- `Lowering::TryFoldCnsVecForEmbeddedBroadcast`, lowerxarch.cpp:9361.
`childIsBroadcastOfParentBase` is `childNode->IsBroadcast(simdBaseType)` for
the parent's base type: every element of the constant equals the same
scalar at that granularity. -/
def tryFoldCnsVecForEmbeddedBroadcast (canUseEmbeddedBroadcast : Bool)
    (childSimdType parentBaseType : VarType)
    (childIsBroadcastOfParentBase : Bool) (hasUse : Bool) : EmbBcstFoldResult :=
  if !canUseEmbeddedBroadcast then .plainContained
  else
    let isCreatedFromScalar :=
      if varTypeIsSmall parentBaseType then false
      else childIsBroadcastOfParentBase
    if isCreatedFromScalar then
      .broadcastFolded (broadcastNameForSimd childSimdType)
        (varTypeIsFloating parentBaseType)
        (!varTypeIsFloating parentBaseType)
        true (handleUse hasUse)
    else .plainContained

/-- C8: a constant vector operand of an embedded-broadcast-compatible
intrinsic whose elements all equal the same (non-small) scalar of the
parent's base type is, when embedded broadcast is available, replaced by
`BroadcastScalarToVectorNNN(CreateScalarUnsafe(scalar))` with the broadcast
width chosen by the constant's SIMD type; the broadcast node is contained
in the parent, and the scalar creation (floating base) or the scalar
constant (integral base) is contained in the broadcast; all-zero and
all-bits-set constants are rejected by the containment gate before the fold
is ever attempted. -/
theorem C8_embedded_broadcast_fold (childSimdType parentBaseType : VarType)
    (hasUse : Bool) (hsmall : varTypeIsSmall parentBaseType = false) :
    tryFoldCnsVecForEmbeddedBroadcast true childSimdType parentBaseType true
        hasUse =
      .broadcastFolded (broadcastNameForSimd childSimdType)
        (varTypeIsFloating parentBaseType) (!varTypeIsFloating parentBaseType)
        true (handleUse hasUse)
  ∧ (∀ sm : Bool, cnsVecCanBeContained sm true false = false ∧
      cnsVecCanBeContained sm false true = false) := by
  constructor
  · simp [tryFoldCnsVecForEmbeddedBroadcast, hsmall]
  · intro sm
    constructor <;> simp [cnsVecCanBeContained]

/-- Witness for C8: a 32-byte float broadcast constant folds to
`BroadcastScalarToVector256` with the scalar creation contained. -/
theorem C8_embedded_broadcast_fold_witness :
    tryFoldCnsVecForEmbeddedBroadcast true .TYP_SIMD32 .TYP_FLOAT true true =
      .broadcastFolded .NI_AVX2_BroadcastScalarToVector256 true false true
        .replacedUse := by
  have h := (C8_embedded_broadcast_fold .TYP_SIMD32 .TYP_FLOAT true rfl).1
  simpa [broadcastNameForSimd, handleUse] using h

/-! ## Use-handling invariant across substituting rewrites (claim C10) -/

/-- The replacement produced by the constant cases of
`Lowering::LowerHWIntrinsicTernaryLogic`. -/
inductive TernaryReplacement
  | zeroVector
  | allBitsSetVector
  | operandC
  deriving DecidableEq

/-- The constant-replacement arm of `Lowering::LowerHWIntrinsicTernaryLogic`
(lowerxarch.cpp:4073-4175), keyed by the post-swap control byte.  A control
using none of the three operands is the constant function 0x00 (zero vector)
or 0xFF (all-bits vector); a control equal to the `C` truth table 0xAA is
`select(c)` and is replaced by the third operand (the use-flag metadata
`TernaryLogicInfo::lookup` lives outside src and is modelled by these
control values, per the source's `control == 0x00 / 0xFF / C` tests).  The
replacement node takes over the `TernaryLogic` node's use. -/
def ternaryLogicConstantReplacement (control : Nat) (hasUse : Bool) :
    Option (TernaryReplacement × UseHandling) :=
  if control == 0x00 then some (.zeroVector, handleUse hasUse)
  else if control == 0xFF then some (.allBitsSetVector, handleUse hasUse)
  else if control == 0xAA then some (.operandC, handleUse hasUse)
  else none

theorem cndSelFallback_cases (isa : IsaFlags) (hasUse : Bool) (u : UseHandling) :
    (cndSelFallback isa hasUse = .andOp u → u = handleUse hasUse)
  ∧ (cndSelFallback isa hasUse = .andNotOp u → u = handleUse hasUse)
  ∧ (cndSelFallback isa hasUse = .orAndAndNot u → u = handleUse hasUse) := by
  refine ⟨?_, ?_, ?_⟩ <;> intro h <;>
    simp only [cndSelFallback] at h <;> split_ifs at h <;>
    first
      | exact CndSelResult.noConfusion h
      | (injection h with h1; exact h1.symm)

theorem cndSelUse_one (isa : IsaFlags) (n : CndSelNode) (hasUse : Bool)
    (r : CndSelResult) (hr : lowerHWIntrinsicCndSel isa n hasUse = r) :
    (∀ u, r = .andOp u → u = handleUse hasUse)
  ∧ (∀ u, r = .andNotOp u → u = handleUse hasUse)
  ∧ (∀ u, r = .orAndAndNot u → u = handleUse hasUse) := by
  simp only [lowerHWIntrinsicCndSel] at hr
  split_ifs at hr <;>
    first
      | (subst hr
         exact ⟨fun u h => by injection h with h1; exact h1.symm,
           fun u h => CndSelResult.noConfusion h,
           fun u h => CndSelResult.noConfusion h⟩)
      | (subst hr
         exact ⟨fun u h => CndSelResult.noConfusion h,
           fun u h => by injection h with h1; exact h1.symm,
           fun u h => CndSelResult.noConfusion h⟩)
      | (subst hr
         exact ⟨fun u h => CndSelResult.noConfusion h, fun u h => CndSelResult.noConfusion h,
           fun u h => CndSelResult.noConfusion h⟩)
      | (rw [← hr]
         exact ⟨fun u h => (cndSelFallback_cases isa hasUse u).1 h,
           fun u h => (cndSelFallback_cases isa hasUse u).2.1 h,
           fun u h => (cndSelFallback_cases isa hasUse u).2.2 h⟩)

/-- C10: every modelled lowering rewrite that substitutes a new value node
for an existing node — the constant-folded `Create`, the conditional-select
`AND`/`AND_NOT`/`OR` rewrites, the ternary-logic constant replacements, and
the embedded-broadcast constant replacement — redirects the old node's use
to the replacement when the block range has one, and otherwise marks the
replacement as an unused value. -/
theorem C10_use_handling (hasUse : Bool) :
    (∀ isCS laneCount ops lanes a b u,
      lowerHWIntrinsicCreate isCS laneCount ops hasUse = .vecCon lanes a b u →
        u = handleUse hasUse)
  ∧ (∀ isa n u, lowerHWIntrinsicCndSel isa n hasUse = .andOp u →
      u = handleUse hasUse)
  ∧ (∀ isa n u, lowerHWIntrinsicCndSel isa n hasUse = .andNotOp u →
      u = handleUse hasUse)
  ∧ (∀ isa n u, lowerHWIntrinsicCndSel isa n hasUse = .orAndAndNot u →
      u = handleUse hasUse)
  ∧ (∀ control r u,
      ternaryLogicConstantReplacement control hasUse = some (r, u) →
        u = handleUse hasUse)
  ∧ (∀ cb st pbt bc ni c1 c2 c3 u,
      tryFoldCnsVecForEmbeddedBroadcast cb st pbt bc hasUse =
          .broadcastFolded ni c1 c2 c3 u →
        u = handleUse hasUse)
  ∧ (handleUse true = .replacedUse ∧ handleUse false = .markedUnused) := by
  refine ⟨?_, ?_, ?_, ?_, ?_, ?_, by constructor <;> rfl⟩
  · intro isCS laneCount ops lanes a b u h
    simp only [lowerHWIntrinsicCreate] at h
    split_ifs at h
    injection h with h1 h2 h3 h4
    exact h4.symm
  · exact fun isa n u h => (cndSelUse_one isa n hasUse _ h).1 u rfl
  · exact fun isa n u h => (cndSelUse_one isa n hasUse _ h).2.1 u rfl
  · exact fun isa n u h => (cndSelUse_one isa n hasUse _ h).2.2 u rfl
  · intro control r u h
    simp only [ternaryLogicConstantReplacement] at h
    split_ifs at h <;>
      first
        | exact Option.noConfusion h
        | (injection h with h1; injection h1 with h2 h3; exact h3.symm)
  · intro cb st pbt bc ni c1 c2 c3 u h
    simp only [tryFoldCnsVecForEmbeddedBroadcast] at h
    split_ifs at h <;>
      first
        | exact EmbBcstFoldResult.noConfusion h
        | (injection h with h1 h2 h3 h4 h5; exact h5.symm)

/-- Witness for C10: the constant-folded `Create` of a vector with a live
use redirects that use to the constant. -/
theorem C10_use_handling_witness :
    UseHandling.replacedUse = handleUse true :=
  (C10_use_handling true).1 false 4 [.cns 0] [0, 0, 0, 0] true true
    .replacedUse (by decide)
